import Mathlib

/-!
Shallow embedding of the PropWise real-estate analyzer
(`src/real_estate_multi_app_ai.py`).

The core of the program is the per-property financial analysis performed in
the `for prop in st.session_state.properties` loop (lines 93-129) together
with the three helper functions `smart_rent_estimate` (lines 66-70),
`investment_type_recommendation` (lines 72-80) and `smart_summary`
(lines 82-85).

Modelling conventions:
* Python numbers are modelled as exact rationals (`ℚ`); the integer-valued
  loan term and hold period, which are used as exponents of `**`, are `ℕ`.
* Python raises `ZeroDivisionError` on division by zero (for `int` and
  `float` operands alike); every division whose denominator can be zero is
  therefore guarded explicitly and the computation returns
  `Except PyError _`.  The two such divisions in the source are the
  amortization denominator (line 97) and the division by `total_invested`
  (line 107); all other divisions are by the nonzero constants 12 and 100.
* An uncaught exception aborts the whole Streamlit script, so the loop that
  builds `comparison_data` is modelled as a monadic map that stops at the
  first failing property.
* Python's `round(x, 2)` and the `:.2f` format both round half-to-even;
  `roundHalfEven`/`round2`/`fmt2` model this on `ℚ`.
-/

/-- The one kind of arithmetic exception the source can raise:
Python's `ZeroDivisionError`. -/
inductive PyError where
  | zeroDivisionError
deriving DecidableEq, Repr

/-- Round a rational to the nearest integer, ties to even
(the semantics of Python's builtin `round`). -/
def roundHalfEven (x : ℚ) : ℤ :=
  if x - x.floor < 1/2 then x.floor
  else if 1/2 < x - x.floor then x.floor + 1
  else if x.floor % 2 = 0 then x.floor else x.floor + 1

/-- Python's `round(x, 2)` (line 120-125 of the source). -/
def round2 (x : ℚ) : ℚ := (roundHalfEven (x * 100) : ℚ) / 100

/-- Zero-padded two-digit rendering of `n < 100`, for the cents part of
a currency amount. -/
def pad2 (n : ℕ) : String :=
  if n < 10 then "0" ++ toString n else toString n

/-- Python's `f"{x:.2f}"` formatting of a number, as used in
`smart_summary` and in the rent-range string (lines 83-84, 126). -/
def fmt2 (x : ℚ) : String :=
  let n : ℤ := roundHalfEven (x * 100)
  (if n < 0 then "-" else "") ++ toString (n.natAbs / 100) ++ "." ++ pad2 (n.natAbs % 100)

/-- One property record as appended to `st.session_state.properties`
(lines 42-61).  `Vacancy` stores the fraction `vacancy / 100` exactly as
line 55 does.  `LoanTerm` and `Hold` are the integer year counts used as
exponents. -/
structure PropertyInput where
  Name : String
  Address : String
  ZIP : String
  Image : String
  SqFt : ℚ
  Price : ℚ
  Down : ℚ
  Interest : ℚ
  LoanTerm : ℕ
  Tax : ℚ
  Insurance : ℚ
  Maint : ℚ
  Vacancy : ℚ
  Rent : ℚ
  Appreciation : ℚ
  Hold : ℕ
  Rehab : ℚ
  Resale : ℚ
deriving DecidableEq, Repr

/-- One row of `comparison_data` (lines 115-129). -/
structure Row where
  Name : String
  Address : String
  ZIP : String
  Image : String
  MonthlyCost : ℚ
  NetRent : ℚ
  CashFlow : ℚ
  AnnualProfit : ℚ
  ROI : ℚ
  FlipProfit : ℚ
  RentRange : String
  InvestmentType : String
  Summary : String
deriving DecidableEq, Repr

/-- Source lines 66-70: `smart_rent_estimate(sqft, zip_code)`. -/
def smart_rent_estimate (sqft : ℚ) (zip_code : String) : ℚ × ℚ :=
  let low_rate : ℚ := 1.1
  let high_rate : ℚ := 1.3
  (sqft * low_rate, sqft * high_rate)

/-- Source lines 72-80: `investment_type_recommendation(roi, cash_flow, flip_profit)`. -/
def investment_type_recommendation (roi cash_flow flip_profit : ℚ) : String :=
  if roi ≥ 10 ∧ cash_flow > 0 then "Best as a Rental"
  else if flip_profit > 0 ∧ roi < 10 then "Good for Flipping"
  else if roi < 5 ∧ cash_flow < 0 then "Bad Buy"
  else "Depends — Evaluate Further"

/-- Source lines 82-85: `smart_summary(name, roi, annual_cf, net_rent)`. -/
def smart_summary (name : String) (roi annual_cf net_rent : ℚ) : String :=
  name ++ " is projected to generate an annual cash flow of $" ++ fmt2 annual_cf
    ++ " with an ROI of " ++ fmt2 roi
    ++ "%. The net rent collected is $" ++ fmt2 net_rent
    ++ " per month, making it a compelling investment."

/-- Line 94: `loan_amt = prop["Price"] - prop["Down"]`. -/
def loan_amt (p : PropertyInput) : ℚ := p.Price - p.Down

/-- Line 95: `monthly_interest = prop["Interest"] / 12 / 100`. -/
def monthly_interest (p : PropertyInput) : ℚ := p.Interest / 12 / 100

/-- Line 96: `months = prop["LoanTerm"] * 12`. -/
def months (p : PropertyInput) : ℕ := p.LoanTerm * 12

/-- The value of line 97's right-hand side when its denominator is nonzero
(`ℚ` division is total, so this is stated unconditionally). -/
def mortgageRaw (p : PropertyInput) : ℚ :=
  loan_amt p * (monthly_interest p * (1 + monthly_interest p) ^ months p) /
    ((1 + monthly_interest p) ^ months p - 1)

/-- The standalone Amortization Calculator of lines 94-97: principal,
annual rate in percent, term in years.  Python raises `ZeroDivisionError`
when `(1+r)^n - 1 == 0` (in particular at rate 0). -/
def mortgagePayment (principal annualRatePercent : ℚ) (termYears : ℕ) :
    Except PyError ℚ :=
  let r := annualRatePercent / 12 / 100
  let n := termYears * 12
  if (1 + r) ^ n - 1 = 0 then .error .zeroDivisionError
  else .ok (principal * (r * (1 + r) ^ n) / ((1 + r) ^ n - 1))

/-- Line 98: `tax_m = prop["Tax"] / 12`. -/
def tax_m (p : PropertyInput) : ℚ := p.Tax / 12

/-- Line 99: `ins_m = prop["Insurance"] / 12`. -/
def ins_m (p : PropertyInput) : ℚ := p.Insurance / 12

/-- Line 100: `total_monthly = mortgage + tax_m + ins_m + prop["Maint"]`. -/
def total_monthly (p : PropertyInput) : ℚ :=
  mortgageRaw p + tax_m p + ins_m p + p.Maint

/-- Line 101: `net_rent = prop["Rent"] * (1 - prop["Vacancy"])`. -/
def net_rent (p : PropertyInput) : ℚ := p.Rent * (1 - p.Vacancy)

/-- Line 102: `cash_flow = net_rent - total_monthly`. -/
def cash_flow (p : PropertyInput) : ℚ := net_rent p - total_monthly p

/-- Line 103: `annual_cf = cash_flow * 12`. -/
def annual_cf (p : PropertyInput) : ℚ := cash_flow p * 12

/-- Line 104: `future_value = prop["Price"] * ((1 + prop["Appreciation"]/100) ** prop["Hold"])`. -/
def future_value (p : PropertyInput) : ℚ :=
  p.Price * (1 + p.Appreciation / 100) ^ p.Hold

/-- Line 105: `appreciation_gain = future_value - prop["Price"]`. -/
def appreciation_gain (p : PropertyInput) : ℚ := future_value p - p.Price

/-- Line 106: `total_invested = prop["Down"] + (prop["Maint"] * 12 * prop["Hold"])`. -/
def total_invested (p : PropertyInput) : ℚ :=
  p.Down + p.Maint * 12 * p.Hold

/-- The value of line 107's right-hand side when `total_invested` is
nonzero: `roi = ((annual_cf * Hold) + appreciation_gain) / total_invested * 100`. -/
def roiRaw (p : PropertyInput) : ℚ :=
  ((annual_cf p * p.Hold) + appreciation_gain p) / total_invested p * 100

/-- Line 108: `flip_profit = prop["Resale"] - prop["Price"] - prop["Rehab"]`. -/
def flip_profit (p : PropertyInput) : ℚ := p.Resale - p.Price - p.Rehab

/-- The loop body of lines 94-129 for a single property: either the
`comparison_data` row, or the `ZeroDivisionError` Python raises (from the
amortization denominator at line 97 or from `total_invested = 0` at
line 107, checked in source order). -/
def analyzeRow (p : PropertyInput) : Except PyError Row :=
  if (1 + monthly_interest p) ^ months p - 1 = 0 then .error .zeroDivisionError
  else if total_invested p = 0 then .error .zeroDivisionError
  else
    .ok {
      Name := p.Name
      Address := p.Address
      ZIP := p.ZIP
      Image := p.Image
      MonthlyCost := round2 (total_monthly p)
      NetRent := round2 (net_rent p)
      CashFlow := round2 (cash_flow p)
      AnnualProfit := round2 (annual_cf p)
      ROI := round2 (roiRaw p)
      FlipProfit := round2 (flip_profit p)
      RentRange := "$" ++ fmt2 (smart_rent_estimate p.SqFt p.ZIP).1
        ++ " - $" ++ fmt2 (smart_rent_estimate p.SqFt p.ZIP).2
      InvestmentType :=
        investment_type_recommendation (roiRaw p) (cash_flow p) (flip_profit p)
      Summary := smart_summary p.Name (roiRaw p) (annual_cf p) (net_rent p) }

/-- Lines 92-129: the loop building `comparison_data`.  An exception in one
iteration aborts the whole script, so the first failing property makes the
entire batch fail. -/
def comparison_data : List PropertyInput → Except PyError (List Row)
  | [] => .ok []
  | p :: ps =>
    match analyzeRow p with
    | .error e => .error e
    | .ok r =>
      match comparison_data ps with
      | .error e => .error e
      | .ok rs => .ok (r :: rs)

/-- The sidebar's default property (lines 19-39), which is also the worked
example of the specification: Price 200000, Down 40000, Interest 6.5 %,
30-year loan, Tax 3600, Insurance 1200, Maintenance 150, Vacancy 5 %,
Rent 1800, Appreciation 3 %, Hold 5, Rehab 30000, Resale 275000. -/
def exProp : PropertyInput :=
  { Name := "Property A", Address := "123 Main St", ZIP := "12345", Image := ""
    SqFt := 1500, Price := 200000, Down := 40000, Interest := 6.5
    LoanTerm := 30, Tax := 3600, Insurance := 1200, Maint := 150
    Vacancy := 0.05, Rent := 1800, Appreciation := 3, Hold := 5
    Rehab := 30000, Resale := 275000 }

/-- The computable `Rat.floor` agrees with the `Int.floor` of the `FloorRing` instance. -/
theorem ratFloor_eq_intFloor (x : ℚ) : x.floor = ⌊x⌋ := by
  rw [Rat.floor_def, Rat.floor_def']

/-- String concatenation is associative. -/
theorem strAppendAssoc (a b c : String) : a ++ b ++ c = a ++ (b ++ c) := by
  cases a with
  | mk la =>
    cases b with
    | mk lb =>
      cases c with
      | mk lc =>
        show String.mk ((la ++ lb) ++ lc) = String.mk (la ++ (lb ++ lc))
        rw [List.append_assoc]

/-- The function `roundHalfEven` returns the unique integer within distance
`1/2` when the tie case is excluded by strict bounds. -/
theorem roundHalfEven_eq_of (x : ℚ) (n : ℤ)
    (h1 : (n : ℚ) - 1/2 < x) (h2 : x < (n : ℚ) + 1/2) :
    roundHalfEven x = n := by
  unfold roundHalfEven
  simp only [ratFloor_eq_intFloor]
  by_cases hx : (n : ℚ) ≤ x
  · have hf : ⌊x⌋ = n := by
      rw [Int.floor_eq_iff]
      constructor
      · exact hx
      · push_cast
        linarith
    rw [hf, if_pos (by linarith)]
  · push_neg at hx
    have hf : ⌊x⌋ = n - 1 := by
      rw [Int.floor_eq_iff]
      constructor
      · push_cast
        linarith
      · push_cast
        linarith
    have hlt : ¬ (x - ((n : ℤ) - 1 : ℤ) < 1/2) := by
      push_cast
      linarith
    have hgt : (1 : ℚ)/2 < x - ((n : ℤ) - 1 : ℤ) := by
      push_cast
      linarith
    rw [hf, if_neg (by push_cast at hlt ⊢; linarith), if_pos (by push_cast; linarith)]
    omega

/-- Rounding to cents: `round2` of a rational strictly between
`c/100 - 1/200` and `c/100 + 1/200` is `c/100`. -/
theorem round2_eq_of (x : ℚ) (c : ℤ)
    (h1 : (c : ℚ)/100 - 1/200 < x) (h2 : x < (c : ℚ)/100 + 1/200) :
    round2 x = (c : ℚ)/100 := by
  unfold round2
  rw [roundHalfEven_eq_of (x * 100) c (by linarith) (by linarith)]

/-- Rounding to cents fixes integers. -/
theorem round2_intCast (n : ℤ) : round2 (n : ℚ) = n := by
  rw [round2_eq_of (n : ℚ) (n * 100) (by push_cast; linarith) (by push_cast; linarith)]
  push_cast
  ring

/-- Zero rounds to zero, a convenient special case. -/
theorem roundHalfEven_zero : roundHalfEven 0 = 0 :=
  roundHalfEven_eq_of 0 0 (by norm_num) (by norm_num)

/-- Formatting zero gives `"0.00"`. -/
theorem fmt2_zero : fmt2 0 = "0.00" := by
  unfold fmt2
  rw [show ((0 : ℚ) * 100) = 0 by ring, roundHalfEven_zero]
  decide

/-- A property whose `total_invested` is zero: `Down = 0`, `Maint = 0`
(the degenerate case named in §4.2 of the specification). -/
def pZero : PropertyInput :=
  { Name := "B", Address := "", ZIP := "", Image := ""
    SqFt := 0, Price := 2, Down := 0, Interest := 1200
    LoanTerm := 1, Tax := 0, Insurance := 0, Maint := 0
    Vacancy := 0, Rent := 0, Appreciation := 0, Hold := 1
    Rehab := 0, Resale := 0 }

/-- Modelled from the spec: the §4.4 Recommendation Classifier as an
explicit priority-ordered decision table (list of predicate/label pairs,
first match wins, rule 4 as the fall-through default). -/
def ruleList : List ((ℚ → ℚ → ℚ → Bool) × String) :=
  [(fun roi cf _ => decide (roi ≥ 10 ∧ cf > 0), "Best as a Rental"),
   (fun roi _ fp => decide (fp > 0 ∧ roi < 10), "Good for Flipping"),
   (fun roi cf _ => decide (roi < 5 ∧ cf < 0), "Bad Buy")]

/-- Modelled from the spec: evaluate a decision table in order, first
match wins, with the §4.4 rule-4 label as default. -/
def firstMatch : List ((ℚ → ℚ → ℚ → Bool) × String) → ℚ → ℚ → ℚ → String
  | [], _, _, _ => "Depends — Evaluate Further"
  | (q, lbl) :: rest, roi, cf, fp =>
    if q roi cf fp then lbl else firstMatch rest roi cf fp

/-- Claim C1 (code bug): at `annualRatePercent = 0` the claim says the
calculator must return `principal / (termYears × 12)` and raise no error,
but the source has no zero-rate guard: line 97 computes `0/0` and Python
raises `ZeroDivisionError`.  This theorem evaluates the code at the
failing input (principal 160000, rate 0, term 30). -/
theorem zero_rate_division_error :
    mortgagePayment 160000 0 30 = Except.error PyError.zeroDivisionError := by
  unfold mortgagePayment
  norm_num

/-- Claim C2: whenever `TotalInvested = Down + Maint × 12 × Hold` is zero,
the per-property computation fails with the identifiable
`ZeroDivisionError` (the realization of the spec's `ArithmeticDegenerate`)
instead of producing an `AnalysisResult` with a non-finite ROI. -/
theorem roi_zero_invested_fails (p : PropertyInput)
    (h : total_invested p = 0) :
    analyzeRow p = Except.error PyError.zeroDivisionError := by
  unfold analyzeRow
  by_cases hden : (1 + monthly_interest p) ^ months p - 1 = 0
  · rw [if_pos hden]
  · rw [if_neg hden, if_pos h]

/-- Witness for C2: the concrete degenerate property `pZero`
(`Down = 0`, `Maint = 0`) indeed fails. -/
theorem roi_zero_invested_fails_witness :
    analyzeRow pZero = Except.error PyError.zeroDivisionError :=
  roi_zero_invested_fails pZero (by norm_num [total_invested, pZero])

/-- Claim C4: the classifier is exactly the spec's priority-ordered
decision table (first match wins); in particular ROI = 10 with positive
cash flow matches rule 1, and ROI = 5 with negative cash flow does not
match rule 3. -/
theorem recommendation_decision_table :
    (∀ roi cf fp : ℚ,
      investment_type_recommendation roi cf fp = firstMatch ruleList roi cf fp) ∧
    (∀ cf fp : ℚ, 0 < cf →
      investment_type_recommendation 10 cf fp = "Best as a Rental") ∧
    (∀ cf fp : ℚ, cf < 0 →
      investment_type_recommendation 5 cf fp ≠ "Bad Buy") := by
  refine ⟨?_, ?_, ?_⟩
  · intro roi cf fp
    simp only [investment_type_recommendation, firstMatch, ruleList,
      decide_eq_true_eq]
  · intro cf fp h
    unfold investment_type_recommendation
    rw [if_pos ⟨le_refl (10 : ℚ), h⟩]
  · intro cf fp h
    unfold investment_type_recommendation
    by_cases hfp : fp > 0
    · rw [if_neg (by rintro ⟨h10, -⟩; norm_num at h10),
        if_pos ⟨hfp, by norm_num⟩]
      decide
    · rw [if_neg (by rintro ⟨h10, -⟩; norm_num at h10),
        if_neg (by rintro ⟨hf, -⟩; exact hfp hf),
        if_neg (by rintro ⟨h5, -⟩; norm_num at h5)]
      decide

/-- Witness for C4: the two boundary cases at concrete inputs. -/
theorem recommendation_decision_table_witness :
    investment_type_recommendation 10 1 0 = "Best as a Rental" ∧
    investment_type_recommendation 5 (-1) 0 ≠ "Bad Buy" :=
  ⟨recommendation_decision_table.2.1 1 0 (by norm_num),
   recommendation_decision_table.2.2 (-1) 0 (by norm_num)⟩

/-- Claim C7: the Rent Estimator returns `(SqFt × 1.10, SqFt × 1.30)` for
every square footage, and the ZIP code argument has no effect on the
result. -/
theorem rent_estimator_range :
    ∀ (sqft : ℚ) (z1 z2 : String),
      smart_rent_estimate sqft z1 = (sqft * 1.1, sqft * 1.3) ∧
      smart_rent_estimate sqft z1 = smart_rent_estimate sqft z2 := by
  intro sqft z1 z2
  exact ⟨rfl, rfl⟩

/-- Claim C10: whatever the sign or magnitude of ROI, annual cash flow and
net rent, the summary string always ends with the fixed phrase
"making it a compelling investment." -/
theorem summary_always_compelling :
    ∀ (name : String) (roi annual_cf net_rent : ℚ),
      ∃ pre : String,
        smart_summary name roi annual_cf net_rent =
          pre ++ "making it a compelling investment." := by
  intro name roi acf nr
  refine ⟨name ++ " is projected to generate an annual cash flow of $"
    ++ fmt2 acf ++ " with an ROI of " ++ fmt2 roi
    ++ "%. The net rent collected is $" ++ fmt2 nr ++ " per month, ", ?_⟩
  rw [strAppendAssoc (name ++ " is projected to generate an annual cash flow of $"
    ++ fmt2 acf ++ " with an ROI of " ++ fmt2 roi
    ++ "%. The net rent collected is $" ++ fmt2 nr)
    " per month, " "making it a compelling investment."]
  rfl

/-- The monthly mortgage payment for the worked example evaluates between
1011.305 and 1011.315 dollars (so it rounds to 1011.31). -/
theorem pay_lb : (1011.305 : ℚ) < mortgageRaw exProp := by
  simp only [mortgageRaw, loan_amt, monthly_interest, months, exProp]
  norm_num

/-- Upper bound companion of `pay_lb`. -/
theorem pay_ub : mortgageRaw exProp < (1011.315 : ℚ) := by
  simp only [mortgageRaw, loan_amt, monthly_interest, months, exProp]
  norm_num

/-- The standalone calculator at the example inputs succeeds and returns
exactly the loop's `mortgage` value for `exProp`. -/
theorem mortgage_ex_ok :
    mortgagePayment 160000 6.5 30 = Except.ok (mortgageRaw exProp) := by
  have hden2 : ¬((1 + (6.5 : ℚ) / 12 / 100) ^ (30 * 12) - 1 = 0) := by norm_num
  simp only [mortgagePayment]
  rw [if_neg hden2]
  refine congrArg Except.ok ?_
  simp only [mortgageRaw, loan_amt, monthly_interest, months, exProp]
  norm_num

/-- Rounded to cents, the example mortgage payment is 1011.31. -/
theorem round2_pay_ex : round2 (mortgageRaw exProp) = 1011.31 := by
  have h := round2_eq_of (mortgageRaw exProp) 101131
    (by have := pay_lb; norm_num at this ⊢; linarith)
    (by have := pay_ub; norm_num at this ⊢; linarith)
  rw [h]
  norm_num

/-- Claim C6 (amended): for positive rate and term the calculator returns
the standard amortization formula, and at principal 160000, rate 6.5 %,
term 30 years the payment is ≈ 1011.31 — not the 1011.38 the original
claim stated. -/
theorem amortization_formula :
    (∀ (principal annualRatePercent : ℚ) (termYears : ℕ),
      0 ≤ principal → 0 < annualRatePercent → 0 < termYears →
      mortgagePayment principal annualRatePercent termYears =
        Except.ok (principal * ((annualRatePercent / 12 / 100) *
            (1 + annualRatePercent / 12 / 100) ^ (termYears * 12)) /
          ((1 + annualRatePercent / 12 / 100) ^ (termYears * 12) - 1))) ∧
    (mortgagePayment 160000 6.5 30 = Except.ok (mortgageRaw exProp) ∧
      1011.305 < mortgageRaw exProp ∧ mortgageRaw exProp < 1011.315 ∧
      round2 (mortgageRaw exProp) = 1011.31) := by
  constructor
  · intro P rate t hP hr ht
    have h1 : (1 : ℚ) < 1 + rate / 12 / 100 := by
      have hpos : (0 : ℚ) < rate / 12 / 100 := by positivity
      linarith
    have hpow : (1 : ℚ) < (1 + rate / 12 / 100) ^ (t * 12) :=
      one_lt_pow₀ h1 (Nat.mul_ne_zero ht.ne' (by norm_num))
    simp only [mortgagePayment]
    rw [if_neg (by
      intro hc
      rw [sub_eq_zero] at hc
      rw [hc] at hpow
      exact lt_irrefl 1 hpow)]
  · exact ⟨mortgage_ex_ok, pay_lb, pay_ub, round2_pay_ex⟩

/-- Witness for C6: a concrete zero-hypothesis instance of the formula
part (principal 100, rate 1200 %, term 1 year). -/
theorem amortization_formula_witness :
    mortgagePayment 100 1200 1 =
      Except.ok (100 * (((1200 : ℚ) / 12 / 100) *
          (1 + (1200 : ℚ) / 12 / 100) ^ (1 * 12)) /
        ((1 + (1200 : ℚ) / 12 / 100) ^ (1 * 12) - 1)) :=
  amortization_formula.1 100 1200 1 (by norm_num) (by norm_num) (by norm_num)

/-- Counterexample for C6 as stated: the payment at the spec's example
inputs rounds to 1011.31, not ≈ 1011.38 — the spec's figure is off by
seven cents, beyond currency rounding. -/
theorem amortization_example_not_spec_value :
    mortgagePayment 160000 6.5 30 = Except.ok (mortgageRaw exProp) ∧
    round2 (mortgageRaw exProp) ≠ 1011.38 :=
  ⟨mortgage_ex_ok, by rw [round2_pay_ex]; norm_num⟩

/-- The example's net monthly rent: `1800 × (1 − 0.05) = 1710`. -/
theorem net_rent_ex : net_rent exProp = 1710 := by
  norm_num [net_rent, exProp]

/-- The example's monthly cost is the mortgage payment plus
`3600/12 + 1200/12 + 150 = 550`. -/
theorem total_monthly_ex : total_monthly exProp = mortgageRaw exProp + 550 := by
  simp only [total_monthly, tax_m, ins_m, exProp]
  ring

/-- The example's cash flow is `1710 − (mortgage + 550)`. -/
theorem cash_flow_ex : cash_flow exProp = 1160 - mortgageRaw exProp := by
  simp only [cash_flow]
  rw [net_rent_ex, total_monthly_ex]
  ring

/-- The example's monthly cost lies strictly between 1561.305 and 1561.315. -/
theorem tm_bounds :
    (1561.305 : ℚ) < total_monthly exProp ∧ total_monthly exProp < 1561.315 := by
  rw [total_monthly_ex]
  constructor
  · have := pay_lb; norm_num at this ⊢; linarith
  · have := pay_ub; norm_num at this ⊢; linarith

/-- The example's monthly cash flow lies strictly between 148.685 and 148.695. -/
theorem cf_bounds :
    (148.685 : ℚ) < cash_flow exProp ∧ cash_flow exProp < 148.695 := by
  rw [cash_flow_ex]
  constructor
  · have := pay_ub; norm_num at this ⊢; linarith
  · have := pay_lb; norm_num at this ⊢; linarith

/-- Rounded to cents, the example's monthly cost is 1561.31. -/
theorem round2_tm_ex : round2 (total_monthly exProp) = 1561.31 := by
  have h := round2_eq_of (total_monthly exProp) 156131
    (by have := tm_bounds.1; norm_num at this ⊢; linarith)
    (by have := tm_bounds.2; norm_num at this ⊢; linarith)
  rw [h]
  norm_num

/-- Rounded to cents, the example's monthly cash flow is 148.69. -/
theorem round2_cf_ex : round2 (cash_flow exProp) = 148.69 := by
  have h := round2_eq_of (cash_flow exProp) 14869
    (by have := cf_bounds.1; norm_num at this ⊢; linarith)
    (by have := cf_bounds.2; norm_num at this ⊢; linarith)
  rw [h]
  norm_num

/-- Evaluation of `round2` at the integer 0. -/
theorem round2_zero : round2 0 = 0 := by
  simpa using round2_intCast 0

/-- Evaluation of `round2` at the integer −1. -/
theorem round2_neg_one : round2 (-1) = -1 := by
  simpa using round2_intCast (-1)

/-- Claim C5 (amended): whenever the analysis of a property succeeds, the
metrics are exactly the spec's formulas (with the mortgage payment being
the value of the Amortization Calculator); at the §8 example inputs this
gives NetMonthlyRent = 1710 exactly, MonthlyCost ≈ 1561.31 and
MonthlyCashFlow ≈ 148.69 — not the 1561.38 / 148.62 of the original
claim. -/
theorem metrics_engine_formulas :
    (∀ (p : PropertyInput) (r : Row), analyzeRow p = Except.ok r →
      mortgagePayment (loan_amt p) p.Interest p.LoanTerm =
          Except.ok (mortgageRaw p) ∧
      total_monthly p = mortgageRaw p + p.Tax / 12 + p.Insurance / 12 + p.Maint ∧
      net_rent p = p.Rent * (1 - p.Vacancy) ∧
      cash_flow p = net_rent p - total_monthly p ∧
      annual_cf p = cash_flow p * 12 ∧
      roiRaw p = ((annual_cf p * p.Hold) + appreciation_gain p) /
          total_invested p * 100 ∧
      flip_profit p = p.Resale - p.Price - p.Rehab) ∧
    (net_rent exProp = 1710 ∧
      1561.305 < total_monthly exProp ∧ total_monthly exProp < 1561.315 ∧
      round2 (total_monthly exProp) = 1561.31 ∧
      148.685 < cash_flow exProp ∧ cash_flow exProp < 148.695 ∧
      round2 (cash_flow exProp) = 148.69) := by
  constructor
  · intro p r h
    unfold analyzeRow at h
    by_cases hden : (1 + monthly_interest p) ^ months p - 1 = 0
    · rw [if_pos hden] at h
      exact absurd h (by simp)
    · have hden2 : ¬((1 + p.Interest / 12 / 100) ^ (p.LoanTerm * 12) - 1 = 0) := hden
      refine ⟨?_, rfl, rfl, rfl, rfl, rfl, rfl⟩
      simp only [mortgagePayment]
      rw [if_neg hden2]
      rfl
  · exact ⟨net_rent_ex, tm_bounds.1, tm_bounds.2, round2_tm_ex,
      cf_bounds.1, cf_bounds.2, round2_cf_ex⟩

/-- Counterexample for C5 as stated: at the §8 example inputs the monthly
cost rounds to 1561.31 (not ≈ 1561.38) and the cash flow rounds to 148.69
(not ≈ 148.62). -/
theorem metrics_example_not_spec_values :
    round2 (total_monthly exProp) ≠ 1561.38 ∧
    round2 (cash_flow exProp) ≠ 148.62 :=
  ⟨by rw [round2_tm_ex]; norm_num, by rw [round2_cf_ex]; norm_num⟩

/-- A minimal non-degenerate property used for concrete witnesses: every
metric evaluates to a simple number (`loan_amt = 0`, all costs 0,
`total_invested = 1`, `flip_profit = -1`). -/
def tProp (nm : String) : PropertyInput :=
  { Name := nm, Address := "", ZIP := "", Image := ""
    SqFt := 0, Price := 1, Down := 1, Interest := 1200
    LoanTerm := 1, Tax := 0, Insurance := 0, Maint := 0
    Vacancy := 0, Rent := 0, Appreciation := 0, Hold := 1
    Rehab := 0, Resale := 0 }

/-- The `comparison_data` row the analysis produces for `tProp nm`. -/
def tRow (nm : String) : Row :=
  { Name := nm, Address := "", ZIP := "", Image := ""
    MonthlyCost := 0, NetRent := 0, CashFlow := 0, AnnualProfit := 0
    ROI := 0, FlipProfit := -1
    RentRange := "$0.00 - $0.00"
    InvestmentType := "Depends — Evaluate Further"
    Summary := nm ++ " is projected to generate an annual cash flow of $0.00 with an ROI of 0.00%. The net rent collected is $0.00 per month, making it a compelling investment." }

/-- Evaluating the loop body on `tProp nm` succeeds and yields `tRow nm`. -/
theorem analyzeRow_tProp (nm : String) :
    analyzeRow (tProp nm) = Except.ok (tRow nm) := by
  have hden : ¬((1 + monthly_interest (tProp nm)) ^ months (tProp nm) - 1 = 0) := by
    norm_num [monthly_interest, months, tProp]
  have hti : ¬(total_invested (tProp nm) = 0) := by
    norm_num [total_invested, tProp]
  have hmr : mortgageRaw (tProp nm) = 0 := by
    simp only [mortgageRaw, loan_amt, tProp]
    norm_num
  have htm : total_monthly (tProp nm) = 0 := by
    simp only [total_monthly, tax_m, ins_m, hmr]
    norm_num [tProp]
  have hnr : net_rent (tProp nm) = 0 := by
    norm_num [net_rent, tProp]
  have hcf : cash_flow (tProp nm) = 0 := by
    simp only [cash_flow, htm, hnr]
    norm_num
  have hacf : annual_cf (tProp nm) = 0 := by
    simp only [annual_cf, hcf]
    norm_num
  have hag : appreciation_gain (tProp nm) = 0 := by
    simp only [appreciation_gain, future_value, tProp]
    norm_num
  have hti1 : total_invested (tProp nm) = 1 := by
    norm_num [total_invested, tProp]
  have hroi : roiRaw (tProp nm) = 0 := by
    simp only [roiRaw, hacf, hag, hti1]
    norm_num
  have hfp : flip_profit (tProp nm) = -1 := by
    norm_num [flip_profit, tProp]
  have hre : smart_rent_estimate (tProp nm).SqFt (tProp nm).ZIP = (0, 0) := by
    simp only [smart_rent_estimate, tProp]
    norm_num
  have hit : investment_type_recommendation 0 0 (-1) = "Depends — Evaluate Further" := by
    unfold investment_type_recommendation
    rw [if_neg (by rintro ⟨h10, -⟩; norm_num at h10),
      if_neg (by rintro ⟨hf, -⟩; norm_num at hf),
      if_neg (by rintro ⟨-, hc⟩; norm_num at hc)]
  have hsum : smart_summary nm 0 0 0 =
      nm ++ " is projected to generate an annual cash flow of $0.00 with an ROI of 0.00%. The net rent collected is $0.00 per month, making it a compelling investment." := by
    unfold smart_summary
    rw [fmt2_zero]
    simp only [strAppendAssoc]
    exact congrArg (HAppend.hAppend nm) (by decide)
  simp only [analyzeRow, if_neg hden, if_neg hti, htm, hnr, hcf, hacf, hroi, hfp,
    hre, Prod.fst, Prod.snd]
  simp only [round2_zero, round2_neg_one, fmt2_zero, tProp, tRow, hit, hsum]
  rw [show ("$" ++ "0.00" ++ " - $" ++ "0.00" : String) = "$0.00 - $0.00" by decide]

/-- Witness for C5: the formula part instantiated at the concrete property
`tProp "M"`, whose analysis succeeds. -/
theorem metrics_engine_formulas_witness :
    mortgagePayment (loan_amt (tProp "M")) (tProp "M").Interest (tProp "M").LoanTerm =
        Except.ok (mortgageRaw (tProp "M")) ∧
    total_monthly (tProp "M") = mortgageRaw (tProp "M") + (tProp "M").Tax / 12 +
        (tProp "M").Insurance / 12 + (tProp "M").Maint ∧
    net_rent (tProp "M") = (tProp "M").Rent * (1 - (tProp "M").Vacancy) ∧
    cash_flow (tProp "M") = net_rent (tProp "M") - total_monthly (tProp "M") ∧
    annual_cf (tProp "M") = cash_flow (tProp "M") * 12 ∧
    roiRaw (tProp "M") = ((annual_cf (tProp "M") * (tProp "M").Hold) +
        appreciation_gain (tProp "M")) / total_invested (tProp "M") * 100 ∧
    flip_profit (tProp "M") = (tProp "M").Resale - (tProp "M").Price - (tProp "M").Rehab :=
  metrics_engine_formulas.1 (tProp "M") (tRow "M") (analyzeRow_tProp "M")

/-- Claim C3 (code bug): the loop has no per-item error isolation.  The
two healthy properties analyze fine on their own and the middle one
raises, but the batch of all three produces a single uncaught
`ZeroDivisionError` — no results at all for items 1 and 3, instead of the
per-item error reporting the claim requires. -/
theorem orchestrator_aborts_batch :
    analyzeRow (tProp "A") = Except.ok (tRow "A") ∧
    analyzeRow (tProp "C") = Except.ok (tRow "C") ∧
    analyzeRow pZero = Except.error PyError.zeroDivisionError ∧
    comparison_data [tProp "A", pZero, tProp "C"] =
      Except.error PyError.zeroDivisionError := by
  have hz : analyzeRow pZero = Except.error PyError.zeroDivisionError := by
    unfold analyzeRow
    by_cases hden : (1 + monthly_interest pZero) ^ months pZero - 1 = 0
    · rw [if_pos hden]
    · rw [if_neg hden, if_pos (by norm_num [total_invested, pZero])]
  refine ⟨analyzeRow_tProp "A", analyzeRow_tProp "C", hz, ?_⟩
  simp only [comparison_data, analyzeRow_tProp, hz]

/-- Claim C8: the analysis of each property is a pure function of that
property alone.  Whenever the batch succeeds, the row at every position
`i` is exactly `analyzeRow` of the input at position `i` — independent of
which other properties are in the list and of their order — and the
output preserves length.  Determinism is inherent: `analyzeRow` is a
function of its argument only. -/
theorem analysis_pure :
    ∀ (props : List PropertyInput) (rows : List Row),
      comparison_data props = Except.ok rows →
      rows.length = props.length ∧
      ∀ (i : ℕ) (h1 : i < props.length) (h2 : i < rows.length),
        analyzeRow (props.get ⟨i, h1⟩) = Except.ok (rows.get ⟨i, h2⟩) := by
  intro props
  induction props with
  | nil =>
    intro rows h
    simp only [comparison_data] at h
    injection h with h'
    subst h'
    exact ⟨rfl, fun i h1 h2 => absurd h1 (Nat.not_lt_zero i)⟩
  | cons p ps ih =>
    intro rows h
    simp only [comparison_data] at h
    cases hr : analyzeRow p with
    | error e =>
      rw [hr] at h
      simp at h
    | ok r =>
      rw [hr] at h
      cases hc : comparison_data ps with
      | error e =>
        rw [hc] at h
        simp at h
      | ok rs =>
        rw [hc] at h
        simp only [Except.ok.injEq] at h
        obtain ⟨hlen, hget⟩ := ih rs hc
        subst h
        refine ⟨by simp [hlen], ?_⟩
        intro i h1 h2
        cases i with
        | zero => exact hr
        | succ j =>
          exact hget j (Nat.lt_of_succ_lt_succ h1) (Nat.lt_of_succ_lt_succ h2)

/-- Witness for C8: applying the purity theorem to the singleton batch
containing `tProp "W"`. -/
theorem analysis_pure_witness :
    analyzeRow (tProp "W") = Except.ok (tRow "W") :=
  (analysis_pure [tProp "W"] [tRow "W"]
      (by simp only [comparison_data, analyzeRow_tProp])).2
    0 (by simp) (by simp)

/-- Claim C9: rounding to two decimals happens only in the presentation
fields of the row; the classifier and the summary formatter receive the
unrounded metrics. -/
theorem rounding_at_presentation :
    ∀ (p : PropertyInput) (r : Row), analyzeRow p = Except.ok r →
      r.MonthlyCost = round2 (total_monthly p) ∧
      r.NetRent = round2 (net_rent p) ∧
      r.CashFlow = round2 (cash_flow p) ∧
      r.AnnualProfit = round2 (annual_cf p) ∧
      r.ROI = round2 (roiRaw p) ∧
      r.FlipProfit = round2 (flip_profit p) ∧
      r.InvestmentType =
        investment_type_recommendation (roiRaw p) (cash_flow p) (flip_profit p) ∧
      r.Summary = smart_summary p.Name (roiRaw p) (annual_cf p) (net_rent p) := by
  intro p r h
  unfold analyzeRow at h
  by_cases hden : (1 + monthly_interest p) ^ months p - 1 = 0
  · rw [if_pos hden] at h
    exact absurd h (by simp)
  · rw [if_neg hden] at h
    by_cases hti : total_invested p = 0
    · rw [if_pos hti] at h
      exact absurd h (by simp)
    · rw [if_neg hti] at h
      injection h with h'
      subst h'
      exact ⟨rfl, rfl, rfl, rfl, rfl, rfl, rfl, rfl⟩

/-- Witness for C9: the rounding theorem instantiated at the concrete
property `tProp "B"` and its row. -/
theorem rounding_at_presentation_witness :
    (tRow "B").MonthlyCost = round2 (total_monthly (tProp "B")) ∧
    (tRow "B").NetRent = round2 (net_rent (tProp "B")) ∧
    (tRow "B").CashFlow = round2 (cash_flow (tProp "B")) ∧
    (tRow "B").AnnualProfit = round2 (annual_cf (tProp "B")) ∧
    (tRow "B").ROI = round2 (roiRaw (tProp "B")) ∧
    (tRow "B").FlipProfit = round2 (flip_profit (tProp "B")) ∧
    (tRow "B").InvestmentType = investment_type_recommendation
      (roiRaw (tProp "B")) (cash_flow (tProp "B")) (flip_profit (tProp "B")) ∧
    (tRow "B").Summary = smart_summary (tProp "B").Name
      (roiRaw (tProp "B")) (annual_cf (tProp "B")) (net_rent (tProp "B")) :=
  rounding_at_presentation (tProp "B") (tRow "B") (analyzeRow_tProp "B")
